import Mathlib

/-!
Verification development for the Project Monica function app
(`function_app.py`, `task_creator.py`, `webhook_renewal.py`).

The Python sources are shallowly embedded below: pure computations become
Lean functions, the remote Graph store becomes an explicit `GraphState`
threaded through the dispatcher, and Python exceptions become explicit
`PyErr` values carried in results.  Remote HTTP calls are modelled by their
observable effect on that state (task creation, subscription patching);
logging is not modelled.
-/

namespace Monica

/-! ### Python `datetime` model

`PyDateTime` mirrors `datetime.datetime`: calendar fields plus an optional
fixed UTC offset in minutes (`none` = a naive datetime, `some o` = aware).
-/

structure PyDateTime where
  year : Int
  month : Nat
  day : Nat
  hour : Nat
  minute : Nat
  second : Nat
  microsecond : Nat
  tzOffsetMinutes : Option Int
deriving DecidableEq, Repr

/-- Days from civil date to the epoch 1970-01-01 (proleptic Gregorian). -/
def daysFromCivil (y : Int) (m d : Nat) : Int :=
  let y' : Int := if m ≤ 2 then y - 1 else y
  let era : Int := Int.fdiv y' 400
  let yoe : Int := y' - era * 400
  let mp : Int := if m > 2 then (m : Int) - 3 else (m : Int) + 9
  let doy : Int := Int.fdiv (153 * mp + 2) 5 + (d : Int) - 1
  let doe : Int := yoe * 365 + Int.fdiv yoe 4 - Int.fdiv yoe 100 + doy
  era * 146097 + doe - 719468

/-- Inverse of `daysFromCivil`: civil date from days since 1970-01-01. -/
def civilFromDays (z0 : Int) : Int × Nat × Nat :=
  let z : Int := z0 + 719468
  let era : Int := Int.fdiv z 146097
  let doe : Int := z - era * 146097
  let yoe : Int := Int.fdiv (doe - Int.fdiv doe 1460 + Int.fdiv doe 36524 - Int.fdiv doe 146096) 365
  let y : Int := yoe + era * 400
  let doy : Int := doe - (365 * yoe + Int.fdiv yoe 4 - Int.fdiv yoe 100)
  let mp : Int := Int.fdiv (5 * doy + 2) 153
  let d : Int := doy - Int.fdiv (153 * mp + 2) 5 + 1
  let m : Int := if mp < 10 then mp + 3 else mp - 9
  (if m ≤ 2 then y + 1 else y, m.toNat, d.toNat)

/-- Absolute instant of a datetime in microseconds since the epoch.
A naive datetime is valued at offset 0 (only ever used where Python would
compare naive with naive). -/
def toEpochMicro (t : PyDateTime) : Int :=
  ((daysFromCivil t.year t.month t.day) * 86400
    + (t.hour : Int) * 3600 + (t.minute : Int) * 60 + (t.second : Int)
    - (t.tzOffsetMinutes.getD 0) * 60) * 1000000 + (t.microsecond : Int)

/-- Python `datetime + timedelta(seconds=s)`: shifts the calendar fields,
keeping the tzinfo (for an aware fixed-offset datetime this also shifts the
instant by `s`).  Only whole-second deltas occur in the sources. -/
def addSeconds (t : PyDateTime) (s : Int) : PyDateTime :=
  let fieldSec : Int := (daysFromCivil t.year t.month t.day) * 86400
    + (t.hour : Int) * 3600 + (t.minute : Int) * 60 + (t.second : Int) + s
  let days : Int := Int.fdiv fieldSec 86400
  let rem : Nat := (fieldSec - days * 86400).toNat
  let c := civilFromDays days
  { year := c.1, month := c.2.1, day := c.2.2,
    hour := rem / 3600, minute := rem % 3600 / 60, second := rem % 60,
    microsecond := t.microsecond, tzOffsetMinutes := t.tzOffsetMinutes }

/-- Python `now.replace(hour=h, minute=m, second=0, microsecond=0)`. -/
def pyReplace (t : PyDateTime) (h m : Nat) : PyDateTime :=
  { t with hour := h, minute := m, second := 0, microsecond := 0 }

/-- An aware UTC datetime (tz offset 0), as produced by
`datetime.now(timezone.utc)` or `datetime(..., tzinfo=timezone.utc)`. -/
def mkUtc (y : Int) (mo d h mi s : Nat) : PyDateTime :=
  { year := y, month := mo, day := d, hour := h, minute := mi, second := s,
    microsecond := 0, tzOffsetMinutes := some 0 }

def pad2 (n : Nat) : String :=
  if n < 10 then "0" ++ toString n else toString n

def pad4 (n : Nat) : String :=
  if n < 10 then "000" ++ toString n
  else if n < 100 then "00" ++ toString n
  else if n < 1000 then "0" ++ toString n
  else toString n

/-- `strftime("%Y-%m-%dT%H:%M:%S.0000000")` as used by both task creators
(the fraction is the literal string "0000000"). -/
def fmtDot7 (t : PyDateTime) : String :=
  pad4 t.year.toNat ++ "-" ++ pad2 t.month ++ "-" ++ pad2 t.day ++ "T"
    ++ pad2 t.hour ++ ":" ++ pad2 t.minute ++ ":" ++ pad2 t.second ++ ".0000000"

/-- `strftime("%Y-%m-%dT%H:%M:%SZ")` as used by the subscription renewer. -/
def fmtZ (t : PyDateTime) : String :=
  pad4 t.year.toNat ++ "-" ++ pad2 t.month ++ "-" ++ pad2 t.day ++ "T"
    ++ pad2 t.hour ++ ":" ++ pad2 t.minute ++ ":" ++ pad2 t.second ++ "Z"

/-- Python timedelta `.days` of the difference of two datetimes:
floor of the microsecond difference over a day. -/
def pyTimedeltaDays (a b : PyDateTime) : Int :=
  Int.fdiv (toEpochMicro a - toEpochMicro b) 86400000000

/-! ### Python exceptions (as values) -/

inductive PyErr where
  | keyError (key : String)
  | valueError
  | typeError
  | attributeError
deriving DecidableEq, Repr

def pyErrMsg : PyErr → String
  | .keyError k => "KeyError: " ++ k
  | .valueError => "ValueError"
  | .typeError => "TypeError"
  | .attributeError => "AttributeError"

/-! ### String parsing helpers -/

/-- The apostrophe character (U+0027). -/
def quoteChar : Char := Char.ofNat 39

def digitsToNat (cs : List Char) : Nat :=
  cs.foldl (fun a c => a * 10 + (c.toNat - 48)) 0

/-- Read exactly `n` decimal digits from the front of `cs`. -/
def parseFixedNat (n : Nat) (cs : List Char) : Option (Nat × List Char) :=
  let pre := cs.take n
  if pre.length = n && pre.all Char.isDigit then some (digitsToNat pre, cs.drop n)
  else none

def expectChar (c : Char) : List Char → Option (List Char)
  | x :: rest => if x = c then some rest else none
  | [] => none

def parseNatDigits (cs : List Char) : Option Nat :=
  if cs ≠ [] && cs.all Char.isDigit then some (digitsToNat cs) else none

/-- Python `int(s)` restricted to the forms `task-chains.json` can contain:
an optional minus sign followed by decimal digits. -/
def pyInt (s : String) : Option Int :=
  match s.data with
  | '-' :: rest => (parseNatDigits rest).map (fun n => -(n : Int))
  | cs => (parseNatDigits cs).map (fun n => (n : Int))

/-- Python `s.split(sep)` for a one-character separator. -/
def splitOnChar (sep : Char) : List Char → List (List Char)
  | [] => [[]]
  | c :: rest =>
    match splitOnChar sep rest with
    | [] => [[]]
    | g :: gs => if c = sep then [] :: g :: gs else (c :: g) :: gs

/-- The due-time block of `create_task` (function_app.py lines 126-137):
`hour, minute = map(int, due_time.split(":"))` followed by
`now.replace(hour=hour, minute=minute, ...)`.  The tuple unpack requires
exactly two fields, and `replace` raises `ValueError` unless
`0 <= hour <= 23` and `0 <= minute <= 59`; every failure mode lands in the
same `except` clause, so they are collapsed into one `Option`. -/
def parseDueTime (s : String) : Option (Nat × Nat) :=
  match (splitOnChar ':' s.data).map (fun g => pyInt (String.mk g)) with
  | [some h, some m] =>
      if 0 ≤ h && h ≤ 23 && 0 ≤ m && m ≤ 59 then some (h.toNat, m.toNat) else none
  | _ => none

/-- Leap year (proleptic Gregorian), as `datetime` validates dates. -/
def isLeapYear (y : Int) : Bool :=
  y % 4 = 0 && (y % 100 ≠ 0 || y % 400 = 0)

def daysInMonth (y : Int) (m : Nat) : Nat :=
  if m = 2 then (if isLeapYear y then 29 else 28)
  else if m = 4 || m = 6 || m = 9 || m = 11 then 30
  else 31

/-- Offset suffix of an ISO string: `+HH:MM` or `-HH:MM` (what the renewer
feeds the parser after `.replace("Z", "+00:00")`), or nothing (naive). -/
def parseIsoOffset (cs : List Char) : Option (Option Int) :=
  match cs with
  | [] => some none
  | sign :: rest =>
    if sign = '+' || sign = '-' then
      match parseFixedNat 2 rest with
      | some (oh, rest1) =>
        match expectChar ':' rest1 with
        | some rest2 =>
          match parseFixedNat 2 rest2 with
          | some (om, rest3) =>
            if rest3 = [] && oh ≤ 23 && om ≤ 59 then
              let total : Int := (oh : Int) * 60 + (om : Int)
              some (some (if sign = '-' then -total else total))
            else none
          | none => none
        | none => none
      | none => none
    else none

/-- Fractional-seconds suffix: `.` or `,` followed by one or more digits;
digits beyond six are truncated, fewer are right-padded (CPython 3.11+
`fromisoformat` behaviour).  Returns microseconds and the remaining input. -/
def parseIsoFraction (cs : List Char) : Option (Nat × List Char) :=
  match cs with
  | sep :: rest =>
    if sep = '.' || sep = ',' then
      let ds := rest.takeWhile Char.isDigit
      let rest1 := rest.dropWhile Char.isDigit
      if ds = [] then none
      else some (digitsToNat ((ds.take 6) ++ List.replicate (6 - ds.length) '0'), rest1)
    else none
  | [] => none

/-- Time-of-day part `HH:MM[:SS[.ffffff]][offset]` of an ISO string. -/
def parseIsoTime (cs : List Char) : Option (Nat × Nat × Nat × Nat × Option Int) :=
  match parseFixedNat 2 cs with
  | none => none
  | some (h, r1) =>
    match expectChar ':' r1 with
    | none => none
    | some r2 =>
      match parseFixedNat 2 r2 with
      | none => none
      | some (mi, r3) =>
        let secPart : Option (Nat × List Char) :=
          match expectChar ':' r3 with
          | some r4 => (parseFixedNat 2 r4).map (fun p => (p.1, p.2))
          | none => none
        match secPart with
        | some (s, r5) =>
          let fracPart := match parseIsoFraction r5 with
            | some (us, r6) => some (us, r6)
            | none => (if r5 = [] || r5.head? = some '+' || r5.head? = some '-'
                       then some (0, r5) else none)
          match fracPart with
          | none => none
          | some (us, r6) =>
            match parseIsoOffset r6 with
            | some off => if h ≤ 23 && mi ≤ 59 && s ≤ 59 then some (h, mi, s, us, off) else none
            | none => none
        | none =>
          match parseIsoOffset r3 with
          | some off => if h ≤ 23 && mi ≤ 59 then some (h, mi, 0, 0, off) else none
          | none => none

/-- Model of `datetime.fromisoformat` on the extended ISO-8601 forms the
Graph API emits: `YYYY-MM-DD[{T| }HH:MM[:SS[.ffffff]][±HH:MM]]`.
Returns `none` where CPython raises `ValueError`. -/
def parseIso (str : String) : Option PyDateTime :=
  let cs := str.data
  match parseFixedNat 4 cs with
  | none => none
  | some (y, r1) =>
    match expectChar '-' r1 with
    | none => none
    | some r2 =>
      match parseFixedNat 2 r2 with
      | none => none
      | some (mo, r3) =>
        match expectChar '-' r3 with
        | none => none
        | some r4 =>
          match parseFixedNat 2 r4 with
          | none => none
          | some (d, r5) =>
            if ¬ (1 ≤ mo && mo ≤ 12 && 1 ≤ d && d ≤ daysInMonth (y : Int) mo) then none
            else match r5 with
            | [] => some { year := y, month := mo, day := d, hour := 0, minute := 0,
                           second := 0, microsecond := 0, tzOffsetMinutes := none }
            | sep :: r6 =>
              if sep = 'T' || sep = ' ' then
                match parseIsoTime r6 with
                | some (h, mi, s, us, off) =>
                    some { year := y, month := mo, day := d, hour := h, minute := mi,
                           second := s, microsecond := us, tzOffsetMinutes := off }
                | none => none
              else none

/-- Python comparison `a <= b` on datetimes: aware/aware and naive/naive
compare by instant; mixing naive and aware raises `TypeError`. -/
def pyLe (a b : PyDateTime) : Except PyErr Bool :=
  match a.tzOffsetMinutes, b.tzOffsetMinutes with
  | some _, some _ => .ok (decide (toEpochMicro a ≤ toEpochMicro b))
  | none, none => .ok (decide (toEpochMicro a ≤ toEpochMicro b))
  | _, _ => .error .typeError

/-! ### Remote Graph To Do store

The dispatcher only observes a task's title and whether its status is
`completed`, so a remote task is modelled by those two fields.  The remote
store is the collection of To Do lists; list ids are unique in Graph. -/

structure RTask where
  title : String
  completed : Bool
deriving DecidableEq, Repr

structure TodoList where
  id : String
  displayName : String
  tasks : List RTask
deriving DecidableEq, Repr

structure GraphState where
  lists : List TodoList
deriving DecidableEq, Repr

/-- `get_list_id` (function_app.py lines 57-70): first list whose
`displayName` equals the given name, else `None`. -/
def get_list_id (st : GraphState) (listName : String) : Option String :=
  (st.lists.find? (fun L => L.displayName == listName)).map (fun L => L.id)

/-- The list served by Graph for a given list id. -/
def findList (st : GraphState) (lid : String) : Option TodoList :=
  st.lists.find? (fun L => L.id == lid)

/-- `get_completed_tasks` (function_app.py lines 74-85): query a list with
`$filter=status eq 'completed'`; an unknown id yields no `value` array,
hence `[]`. -/
def get_completed_tasks (st : GraphState) (lid : String) : List RTask :=
  ((findList st lid).map (fun L => L.tasks.filter (fun t => t.completed))).getD []

/-- `task_exists` (function_app.py lines 89-104): fetch all tasks of the
list — with no status filter — and compare each `title` against the
successor name. -/
def task_exists (st : GraphState) (lid : String) (taskName : String) : Bool :=
  ((findList st lid).map (fun L => L.tasks.any (fun t => t.title == taskName))).getD false

/-- The `dueDateTime` object posted to Graph. -/
structure GraphDateTime where
  dateTime : String
  timeZone : String
deriving DecidableEq, Repr

/-- The JSON body `create_task` posts (function_app.py lines 121-134). -/
structure TaskBody where
  title : String
  categories : List String
  dueDateTime : Option GraphDateTime
deriving DecidableEq, Repr

/-- Body construction of `create_task` (function_app.py lines 108-139).
`if due_time:` is false for `None` and for the empty string; inside the
`try`, any parse or `replace` failure is caught and the due date simply
omitted (see `parseDueTime`). -/
def create_task_body (taskName category : String) (dueTime : Option String)
    (now : PyDateTime) : TaskBody :=
  let base : TaskBody := { title := taskName, categories := [category], dueDateTime := none }
  match dueTime with
  | none => base
  | some s =>
    if s = "" then base
    else match parseDueTime s with
      | some (h, m) =>
          { base with dueDateTime := some { dateTime := fmtDot7 (pyReplace now h m), timeZone := "UTC" } }
      | none => base

/-- Effect of the `POST .../tasks` issued by `create_task` on the remote
store: the new task is appended to the target list, with status
`notStarted` (not completed). -/
def create_task_st (st : GraphState) (lid : String) (taskName : String) : GraphState :=
  ⟨st.lists.map (fun L =>
    if L.id == lid then { L with tasks := L.tasks ++ [{ title := taskName, completed := false }] } else L)⟩

/-- Record of one successor-creation call: target list id and posted body. -/
structure CreateCall where
  listId : String
  body : TaskBody
deriving DecidableEq, Repr

/-! ### Chain Dispatcher (`taskChain`, function_app.py lines 143-217) -/

/-- One rule of `task-chains.json` (spec §3 ChainRule). -/
structure Chain where
  trigger_task : String
  creates_task : String
  list : String
  category : String
  due_time : Option String
deriving DecidableEq, Repr

structure Notification where
  resource : String
deriving DecidableEq, Repr

/-- The marker matched by `re.search(r"lists\('([^']+)'\)", resource)`:
the literal characters `lists('`. -/
def listsMarker : List Char := "lists(".data ++ [quoteChar]

/-- Attempt of the regex at one position: literal `lists('`, then one or
more non-quote characters (captured), then `')`.  The character class
`[^']+` cannot consume the closing quote, so no backtracking arises. -/
def listsMatchAt (cs : List Char) : Option String :=
  if listsMarker.isPrefixOf cs then
    let rest := cs.drop 7
    let cap := rest.takeWhile (fun c => c ≠ quoteChar)
    let rest2 := rest.dropWhile (fun c => c ≠ quoteChar)
    if cap = [] then none
    else match rest2 with
      | c1 :: c2 :: _ => if c1 = quoteChar && c2 = ')' then some (String.mk cap) else none
      | _ => none
  else none

def listsSearchFrom : List Char → Option String
  | [] => none
  | c :: cs =>
    match listsMatchAt (c :: cs) with
    | some r => some r
    | none => listsSearchFrom cs

/-- `re.search(r"lists\('([^']+)'\)", resource)` with its captured group:
first match anywhere in the string. -/
def findListId (resource : String) : Option String :=
  listsSearchFrom resource.data

/-- Body of the innermost `for chain in chains` loop (lines 189-211) for a
single chain, given the title of one completed task.  Returns the updated
remote state and the creation calls issued.  Note the loop has no `break`:
`runChains` below therefore visits every chain. -/
def applyChain (now : PyDateTime) (completedTitle : String) (c : Chain)
    (st : GraphState) : GraphState × List CreateCall :=
  if c.trigger_task == completedTitle then
    match get_list_id st c.list with
    | none => (st, [])
    | some target =>
      if task_exists st target c.creates_task then (st, [])
      else (create_task_st st target c.creates_task,
            [{ listId := target,
               body := create_task_body c.creates_task c.category c.due_time now }])
  else (st, [])

/-- `for chain in chains:` — every chain is examined in document order. -/
def runChains (now : PyDateTime) (completedTitle : String) :
    List Chain → GraphState → GraphState × List CreateCall
  | [], st => (st, [])
  | c :: cs, st =>
    let r1 := applyChain now completedTitle c st
    let r2 := runChains now completedTitle cs r1.1
    (r2.1, r1.2 ++ r2.2)

/-- `for task in completed_tasks:` — the completed snapshot was fetched
once, before this loop; the title is `task.get("title", "")`. -/
def runTasks (now : PyDateTime) (chains : List Chain) :
    List RTask → GraphState → GraphState × List CreateCall
  | [], st => (st, [])
  | t :: ts, st =>
    let r1 := runChains now t.title chains st
    let r2 := runTasks now chains ts r1.1
    (r2.1, r1.2 ++ r2.2)

/-- Body of `for notification in notifications:` (lines 170-211) for one
notification: extract the list id from the resource (skip the notification
if the pattern is absent), snapshot the completed tasks, run the chains. -/
def processNotification (now : PyDateTime) (chains : List Chain)
    (n : Notification) (st : GraphState) : GraphState × List CreateCall :=
  match findListId n.resource with
  | none => (st, [])
  | some lid => runTasks now chains (get_completed_tasks st lid) st

/-! ### Webhook handler over raw JSON values

The request body is untyped JSON; the handler's control flow depends on
the dynamic shapes Python meets (`.get` needs a dict, iteration needs an
iterable, `re.search` needs a str), so those are modelled explicitly. -/

inductive PyVal where
  | pstr (s : String)
  | pint (n : Int)
  | pbool (b : Bool)
  | pnull
  | plist (xs : List PyVal)
  | pdict (kvs : List (String × PyVal))
deriving Repr

def lookupKV (key : String) : List (String × PyVal) → Option PyVal
  | [] => none
  | kv :: rest => if kv.1 == key then some kv.2 else lookupKV key rest

/-- Python `for x in v`: lists yield elements, strings yield 1-character
strings, dicts yield their keys; other values raise `TypeError`. -/
def pyIter : PyVal → Except PyErr (List PyVal)
  | .plist xs => .ok xs
  | .pstr s => .ok (s.data.map (fun c => .pstr (String.mk [c])))
  | .pdict kvs => .ok (kvs.map (fun kv => .pstr kv.1))
  | _ => .error .typeError

/-- `notification.get("resource", "")`: only dicts have `.get`. -/
def notifResource : PyVal → Except PyErr PyVal
  | .pdict kvs => .ok ((lookupKV "resource" kvs).getD (.pstr ""))
  | _ => .error .attributeError

/-- The `for notification in notifications:` loop over raw items.  A raised
exception aborts the loop (and is caught by the handler's outer `try`);
state changes and creation calls made before the exception stand. -/
def processItems (now : PyDateTime) (chains : List Chain) :
    List PyVal → GraphState → GraphState × List CreateCall × Option PyErr
  | [], st => (st, [], none)
  | item :: rest, st =>
    match notifResource item with
    | .error e => (st, [], some e)
    | .ok rv =>
      match rv with
      | .pstr s =>
        let r1 := processNotification now chains { resource := s } st
        let r2 := processItems now chains rest r1.1
        (r2.1, r1.2 ++ r2.2.1, r2.2.2)
      | _ => (st, [], some .typeError)  -- re.search on a non-str resource

/-- `notifications = body.get("value", [])` followed by the loop.
A non-dict body raises `AttributeError` at `.get`. -/
def runLoop (now : PyDateTime) (chains : List Chain) (v : PyVal)
    (st : GraphState) : GraphState × List CreateCall × Option PyErr :=
  match v with
  | .pdict kvs =>
    let notifVal := (lookupKV "value" kvs).getD (.plist [])
    match pyIter notifVal with
    | .error e => (st, [], some e)
    | .ok items => processItems now chains items st
  | _ => (st, [], some .attributeError)

structure HttpRequest where
  validationToken : Option String
  /-- `req.get_json()`: `none` models the `ValueError` raised on a body
  that is not valid JSON. -/
  body : Option PyVal

structure HttpResponseM where
  body : String
  statusCode : Nat
  mimetype : Option String
deriving DecidableEq, Repr

/-- `taskChain` (function_app.py lines 143-217), with the token, the rule
document and the remote store supplied as resolved environment.  Echoes a
`validationToken` if present; otherwise parses the body and runs the
dispatcher inside `try`, answering `"OK"`/200 on normal completion and
`f"Error: {e}"`/500 when `get_json` fails or an exception escapes. -/
def taskChainHandler (now : PyDateTime) (chains : List Chain)
    (st : GraphState) (req : HttpRequest) :
    HttpResponseM × GraphState × List CreateCall :=
  match req.validationToken with
  | some tok => ({ body := tok, statusCode := 200, mimetype := some "text/plain" }, st, [])
  | none =>
    match req.body with
    | none => ({ body := "Error: " ++ pyErrMsg .valueError, statusCode := 500, mimetype := none }, st, [])
    | some v =>
      let r := runLoop now chains v st
      match r.2.2 with
      | none => ({ body := "OK", statusCode := 200, mimetype := none }, r.1, r.2.1)
      | some e => ({ body := "Error: " ++ pyErrMsg e, statusCode := 500, mimetype := none }, r.1, r.2.1)

/-! ### Token acquisition (three separate implementations in the source) -/

/-- The two Managed-Identity environment variables; `none` = unset. -/
structure IdentityEnv where
  identityEndpoint : Option String
  identityHeader : Option String

/-- `get_access_token` of function_app.py (lines 27-38):
`os.environ["IDENTITY_ENDPOINT"]` raises `KeyError` when the variable is
absent; on success the token request (abstracted as `fetch`) is issued and
`response.json()["access_token"]` returned. -/
def fa_get_access_token (env : IdentityEnv)
    (fetch : String → String → Except PyErr String) : Except PyErr String :=
  match env.identityEndpoint with
  | none => .error (.keyError "IDENTITY_ENDPOINT")
  | some ep =>
    match env.identityHeader with
    | none => .error (.keyError "IDENTITY_HEADER")
    | some hd => fetch ep hd

/-- `get_access_token` of task_creator.py (lines 18-39): `os.environ.get`
plus a falsiness check (unset or empty string → log and return `None`);
the request runs inside `try`, any exception → `None`; on success
`response.json().get("access_token")` (which may itself be `None`). -/
def tc_get_access_token (env : IdentityEnv)
    (fetch : String → String → Except PyErr (Option String)) : Option String :=
  match env.identityEndpoint, env.identityHeader with
  | some ep, some hd =>
    if ep = "" || hd = "" then none
    else match fetch ep hd with
      | .ok t => t
      | .error _ => none
  | _, _ => none

/-- `get_access_token` of webhook_renewal.py (lines 99-122): textually the
same logic as the task_creator variant (the source duplicates it). -/
def wr_get_access_token (env : IdentityEnv)
    (fetch : String → String → Except PyErr (Option String)) : Option String :=
  match env.identityEndpoint, env.identityHeader with
  | some ep, some hd =>
    if ep = "" || hd = "" then none
    else match fetch ep hd with
      | .ok t => t
      | .error _ => none
  | _, _ => none

/-! ### Recurring Task Generator (task_creator.py) -/

/-- The JSON body `create_todo_task` posts (task_creator.py lines 42-74).
`isReminderOn` is set (to `True`) exactly when a reminder is supplied;
`false` here stands for the key being absent from the body. -/
structure CreatorBody where
  title : String
  categories : List String
  dueDateTime : Option GraphDateTime
  reminderDateTime : Option GraphDateTime
  isReminderOn : Bool
deriving DecidableEq, Repr

def create_todo_body (title category : String)
    (dueUtc reminderUtc : Option PyDateTime) : CreatorBody :=
  { title := title
    categories := [category]
    dueDateTime := dueUtc.map (fun d => { dateTime := fmtDot7 d, timeZone := "UTC" })
    reminderDateTime := reminderUtc.map (fun r => { dateTime := fmtDot7 r, timeZone := "UTC" })
    isReminderOn := reminderUtc.isSome }

/-- `today_utc_at(hour, minute)` (task_creator.py lines 77-83), applied to
the invocation instant `now`. -/
def today_utc_at (now : PyDateTime) (hour minute : Nat) : PyDateTime :=
  pyReplace now hour minute

/-- `datetime(2026, 2, 27, tzinfo=timezone.utc)`. -/
def bath_towels_start : PyDateTime := mkUtc 2026 2 27 0 0 0

/-- `datetime(2026, 3, 6, tzinfo=timezone.utc)`. -/
def bedding_start : PyDateTime := mkUtc 2026 3 6 0 0 0

/-- `createFridayTasks` (task_creator.py lines 208-228), as the list of
task-creation calls it issues given the token (absent token → return with
no calls) and the invocation instant.  The biweekly guard is
`weeks = (today - start).days // 7; weeks >= 0 and weeks % 2 == 0`. -/
def createFridayTasks (token : Option String) (now : PyDateTime) : List CreatorBody :=
  match token with
  | none => []
  | some _ =>
    let today := today_utc_at now 5 0
    let reminder := today_utc_at now 9 0
    let weeksBath : Int := Int.fdiv (pyTimedeltaDays today bath_towels_start) 7
    let weeksBedding : Int := Int.fdiv (pyTimedeltaDays today bedding_start) 7
    [create_todo_body "Vacuum: through and dust" "[00] System" (some today) (some reminder)]
      ++ (if 0 ≤ weeksBath ∧ weeksBath % 2 = 0
          then [create_todo_body "Wash: Bath Towels" "[00] System" (some today) none] else [])
      ++ (if 0 ≤ weeksBedding ∧ weeksBedding % 2 = 0
          then [create_todo_body "Wash: Bedding" "[00] System" (some today) none] else [])

/-! ### Subscription Renewer (webhook_renewal.py) -/

/-- A subscription as listed by `GET /subscriptions`; the renewer reads
`id`, `expirationDateTime` (default `""`) and `resource`. -/
structure Subscription where
  id : String
  expirationDateTime : String
  resource : String
deriving DecidableEq, Repr

/-- A `PATCH /subscriptions/{id}` call with its new `expirationDateTime`. -/
structure PatchCall where
  subId : String
  newExpiry : String
deriving DecidableEq, Repr

/-- Python `expiry_str.replace("Z", "+00:00")`: the pattern is a single
character, so this is a per-character substitution. -/
def replaceZ (s : String) : String :=
  String.mk (s.data.flatMap (fun c => if c = 'Z' then "+00:00".data else [c]))

/-- The renewal window test `expiry <= now + timedelta(hours=48)`, for a
subscription whose expiry string parses to an aware datetime. -/
def withinWindow (now : PyDateTime) (sub : Subscription) : Bool :=
  match parseIso (replaceZ sub.expirationDateTime) with
  | some expiry => decide (toEpochMicro expiry ≤ toEpochMicro (addSeconds now (48 * 3600)))
  | none => false

/-- The `for sub in subscriptions:` loop of `renewWebhookSubscriptions`
(webhook_renewal.py lines 63-96).  `fromisoformat` failure (`ValueError`)
is caught and the subscription skipped; the comparison
`expiry <= renewal_threshold` can raise `TypeError` (naive vs aware) which
no clause catches, aborting the remainder of the loop.  A subscription in
the window is patched to expire `now + timedelta(minutes=4200)` (strftime
`%Y-%m-%dT%H:%M:%SZ`); one outside the window is not touched. -/
def renewProcess (now : PyDateTime) :
    List Subscription → List PatchCall × Option PyErr
  | [] => ([], none)
  | sub :: rest =>
    match parseIso (replaceZ sub.expirationDateTime) with
    | none => renewProcess now rest
    | some expiry =>
      match pyLe expiry (addSeconds now (48 * 3600)) with
      | .error e => ([], some e)
      | .ok true =>
        let patch : PatchCall := { subId := sub.id, newExpiry := fmtZ (addSeconds now (4200 * 60)) }
        let r := renewProcess now rest
        (patch :: r.1, r.2)
      | .ok false => renewProcess now rest

/-- `renewWebhookSubscriptions` top level: abort with no patches when no
token is obtained or the subscription listing fails; otherwise run the
renewal loop over the listed subscriptions. -/
def renewWebhookSubscriptions (token : Option String)
    (listing : Option (List Subscription)) (now : PyDateTime) :
    List PatchCall × Option PyErr :=
  match token with
  | none => ([], none)
  | some _ =>
    match listing with
    | none => ([], none)
    | some subs => renewProcess now subs

/-! ## Concrete demonstration inputs -/

/-- A single apostrophe, as it appears inside Graph resource paths. -/
def q : String := String.mk [quoteChar]

/-- A fixed invocation instant, 2026-10-12 07:30:22 UTC. -/
def demoNow : PyDateTime := mkUtc 2026 10 12 7 30 22

/-! ## Theorems -/

theorem list_mem_ite_singleton {x b : String} {c : Prop} [Decidable c] :
    (x ∈ if c then [b] else ([] : List String)) ↔ c ∧ x = b := by
  split
  · simp_all
  · simp_all

/-- C2, counterexample infrastructure: a rule document with two rules
sharing the trigger `"A"`, a source list holding a completed task `"A"`,
and an empty resolvable target list. -/
def c2State : GraphState :=
  ⟨[⟨"l0", "Source", [⟨"A", true⟩]⟩, ⟨"l1", "Chores", []⟩]⟩

def c2Chains : List Chain :=
  [⟨"A", "B1", "Chores", "[02] Home", none⟩,
   ⟨"A", "B2", "Chores", "[02] Home", none⟩]

def c2Notif : Notification := ⟨"lists(" ++ q ++ "l0" ++ q ++ ")"⟩

/-- C2 counterexample: with two rules whose `trigger_task` is `"A"` and one
completed task titled `"A"`, the dispatcher issues TWO creation calls
(`"B1"` and then `"B2"`) — the inner chain loop has no `break`, so it does
not stop at the first match, contradicting "at most one rule per completed
task". -/
theorem first_match_wins_counterexample :
    ((processNotification demoNow c2Chains c2Notif c2State).2).map (fun k => k.body.title)
      = ["B1", "B2"] ∧
    ((processNotification demoNow c2Chains c2Notif c2State).2).length = 2 := by
  constructor <;> decide

/-- C2 (amended): the dispatcher applies every rule whose `trigger_task`
equals the completed task's title exactly (case-sensitively), in document
order — running the chain loop is the same as running it on the sublist of
exactly-matching rules, in order; non-matching rules contribute nothing. -/
theorem all_matching_rules_applied (now : PyDateTime) (title : String)
    (cs : List Chain) (st : GraphState) :
    runChains now title cs st
      = runChains now title (cs.filter (fun c => c.trigger_task == title)) st := by
  induction cs generalizing st with
  | nil => rfl
  | cons c rest ih =>
    by_cases h : c.trigger_task == title
    · simp only [runChains, List.filter_cons, h, if_pos, ih]
    · have hskip : applyChain now title c st = (st, []) := by
        simp [applyChain, h]
      simp only [runChains, List.filter_cons, h, hskip, ih, List.nil_append]
      simp

/-- C3: due-date postcondition of `create_task`.  With `due_time` absent
the posted body carries no `dueDateTime`; with a parsable `due_time`
(`HH:MM`, in-range) it carries `dueDateTime` = the invocation day at
`HH:MM:00` UTC (`now.replace(hour, minute, 0, 0)` formatted with a
`.0000000` fraction) and `timeZone = "UTC"`. -/
theorem due_date_postcondition (now : PyDateTime) (name cat : String) :
    (create_task_body name cat none now).dueDateTime = none ∧
    (∀ s h m, parseDueTime s = some (h, m) →
      (create_task_body name cat (some s) now).dueDateTime
        = some { dateTime := fmtDot7 (pyReplace now h m), timeZone := "UTC" }) := by
  refine ⟨rfl, fun s h m hp => ?_⟩
  have hempty : parseDueTime "" = none := by decide
  have hne : s ≠ "" := by
    intro he
    rw [he, hempty] at hp
    exact Option.noConfusion hp
  simp [create_task_body, hne, hp]

/-- C3 witness: at 2026-10-12 07:30:22 UTC, a rule with `due_time`
`"19:00"` yields a due date of 2026-10-12T19:00:00 UTC, and a rule with no
`due_time` yields none. -/
theorem due_date_postcondition_witness :
    (create_task_body "Dry: Towels" "[02] Home" none demoNow).dueDateTime = none ∧
    (create_task_body "Dry: Towels" "[02] Home" (some "19:00") demoNow).dueDateTime
      = some { dateTime := "2026-10-12T19:00:00.0000000", timeZone := "UTC" } := by
  refine ⟨(due_date_postcondition demoNow "Dry: Towels" "[02] Home").1, ?_⟩
  rw [(due_date_postcondition demoNow "Dry: Towels" "[02] Home").2 "19:00" 19 0 (by decide)]
  decide

/-- C10: the idempotence guard is status-blind.  If the resolved target
list contains any task whose title equals `creates_task` — its `completed`
status is entirely unconstrained, so in particular an already-completed
task qualifies — then `task_exists` answers `true` and the chain
application creates nothing and leaves the remote state unchanged. -/
theorem idempotence_guard_status_blind (now : PyDateTime) (title : String)
    (c : Chain) (st : GraphState) (target : String) (L : TodoList) (t : RTask)
    (hres : get_list_id st c.list = some target)
    (hL : findList st target = some L)
    (ht : t ∈ L.tasks) (htitle : t.title = c.creates_task) :
    task_exists st target c.creates_task = true ∧
    applyChain now title c st = (st, []) := by
  have hex : task_exists st target c.creates_task = true := by
    unfold task_exists
    rw [hL]
    show (L.tasks.any fun u => u.title == c.creates_task) = true
    rw [List.any_eq_true]
    exact ⟨t, ht, by simp [htitle]⟩
  refine ⟨hex, ?_⟩
  cases htr : (c.trigger_task == title) <;> simp [applyChain, htr, hres, hex]

/-- C10 witness infrastructure: the target list `"Chores"` already holds a
COMPLETED task `"Dry: Towels"` (a successor from a previous cycle). -/
def c10State : GraphState :=
  ⟨[⟨"l0", "Source", [⟨"Wash: Towels", true⟩]⟩,
    ⟨"l1", "Chores", [⟨"Dry: Towels", true⟩]⟩]⟩

def c10Chain : Chain := ⟨"Wash: Towels", "Dry: Towels", "Chores", "[02] Home", some "19:00"⟩

/-- C10 witness: a completed `"Dry: Towels"` already in `"Chores"`
suppresses creation of a fresh successor. -/
theorem idempotence_guard_status_blind_witness :
    task_exists c10State "l1" "Dry: Towels" = true ∧
    applyChain demoNow "Wash: Towels" c10Chain c10State = (c10State, []) := by
  have h := idempotence_guard_status_blind demoNow "Wash: Towels" c10Chain c10State
    "l1" ⟨"l1", "Chores", [⟨"Dry: Towels", true⟩]⟩ ⟨"Dry: Towels", true⟩
    (by decide) (by decide) (by decide) (by decide)
  exact h

/-- C7: a notification whose resource does not contain the
`lists('<id>')` pattern is skipped without raising — processing the batch
with such an item is identical to processing the batch without it, so all
remaining notifications are still handled. -/
theorem malformed_resource_skipped (now : PyDateTime) (chains : List Chain)
    (pre post : List PyVal) (r : String) (st : GraphState)
    (h : findListId r = none) :
    processItems now chains (pre ++ PyVal.pdict [("resource", PyVal.pstr r)] :: post) st
      = processItems now chains (pre ++ post) st := by
  induction pre generalizing st with
  | nil =>
    show processItems now chains (PyVal.pdict [("resource", PyVal.pstr r)] :: post) st
      = processItems now chains post st
    simp only [processItems, notifResource, lookupKV]
    simp only [show (("resource" : String) == "resource") = true from rfl, if_pos,
      Option.getD_some, processNotification, h]
    simp [processItems]
  | cons p pre ih =>
    simp only [List.cons_append, processItems]
    cases hnr : notifResource p with
    | error e => rfl
    | ok rv =>
      cases rv with
      | pstr s => simp only [List.append_eq, ih]
      | pint n => rfl
      | pbool b => rfl
      | pnull => rfl
      | plist xs => rfl
      | pdict kvs => rfl

/-- C7 witness infrastructure: a well-formed notification following the
malformed one, targeting the source list of `c2State`. -/
def c7GoodItem : PyVal :=
  PyVal.pdict [("resource", PyVal.pstr ("lists(" ++ q ++ "l0" ++ q ++ ")"))]

/-- C7 witness: a resource path with no `lists('<id>')` marker is dropped
and the following notification is still processed. -/
theorem malformed_resource_skipped_witness :
    processItems demoNow c2Chains
        ([] ++ PyVal.pdict [("resource", PyVal.pstr "/me/todo/tasks")] :: [c7GoodItem]) c2State
      = processItems demoNow c2Chains ([] ++ [c7GoodItem]) c2State :=
  malformed_resource_skipped demoNow c2Chains [] [c7GoodItem] "/me/todo/tasks" c2State (by decide)

/-- C8: unparsable timestamps are non-fatal.
(a) In `create_task`, a `due_time` the `try` block cannot turn into a
valid hour/minute leaves the posted body without a `dueDateTime` — the
creation call itself still goes out with title and category intact.
(b) In the renewer, a subscription whose `expirationDateTime` makes
`fromisoformat` raise `ValueError` is skipped and the loop's outcome is
exactly that of the batch without it — sibling subscriptions proceed and
no exception propagates from the skipped item. -/
theorem unparsable_timestamp_skipped :
    (∀ (now : PyDateTime) (name cat s : String), parseDueTime s = none →
        create_task_body name cat (some s) now
          = { title := name, categories := [cat], dueDateTime := none }) ∧
    (∀ (now : PyDateTime) (pre post : List Subscription) (bad : Subscription),
        parseIso (replaceZ bad.expirationDateTime) = none →
        renewProcess now (pre ++ bad :: post) = renewProcess now (pre ++ post)) := by
  constructor
  · intro now name cat s hp
    by_cases he : s = ""
    · simp [create_task_body, he]
    · simp [create_task_body, he, hp]
  · intro now pre post bad hbad
    induction pre with
    | nil => simp only [List.nil_append, renewProcess, hbad]
    | cons sub pre ih =>
      cases hp : parseIso (replaceZ sub.expirationDateTime) with
      | none =>
        simp only [List.cons_append, renewProcess, hp]
        exact ih
      | some expiry =>
        cases hle : pyLe expiry (addSeconds now (48 * 3600)) with
        | error e => simp only [List.cons_append, renewProcess, hp, hle]
        | ok b =>
          cases b with
          | false =>
            simp only [List.cons_append, renewProcess, hp, hle]
            exact ih
          | true => simp only [List.cons_append, renewProcess, hp, hle, List.append_eq, ih]

/-- C8 witness infrastructure: one unparsable and one renewable
subscription. -/
def c8BadSub : Subscription := ⟨"s0", "not-a-timestamp", "todo"⟩

def c8GoodSub : Subscription := ⟨"s2", "2026-10-13T00:00:00Z", "todo"⟩

/-- C8 witness: `due_time = "7pm"` is dropped but the body is still built,
and an unparsable subscription expiry is skipped while its sibling is
still renewed. -/
theorem unparsable_timestamp_skipped_witness :
    create_task_body "Dry: Towels" "[02] Home" (some "7pm") demoNow
      = { title := "Dry: Towels", categories := ["[02] Home"], dueDateTime := none } ∧
    renewProcess demoNow ([] ++ c8BadSub :: [c8GoodSub]) = renewProcess demoNow ([] ++ [c8GoodSub]) :=
  ⟨unparsable_timestamp_skipped.1 demoNow "Dry: Towels" "[02] Home" "7pm" (by decide),
   unparsable_timestamp_skipped.2 demoNow [] [c8GoodSub] c8BadSub (by decide)⟩

/-- C9 counterexample: the claim says every component's token acquisition
returns no token (rather than raising) when the identity configuration is
missing, but `get_access_token` in function_app.py reads
`os.environ["IDENTITY_ENDPOINT"]`, which RAISES `KeyError` when the
variable is absent — it cannot return an empty-handed result at all. -/
theorem missing_identity_counterexample :
    fa_get_access_token ⟨none, some "hdr"⟩ (fun _ _ => Except.ok "tok")
      = Except.error (PyErr.keyError "IDENTITY_ENDPOINT") := rfl

/-- C9 (amended): with `IDENTITY_ENDPOINT` or `IDENTITY_HEADER` absent,
the two blueprint implementations (task_creator.py, webhook_renewal.py)
return no token, and their timer callers given no token abort that single
invocation with no remote calls; the function_app.py implementation
instead raises `KeyError` (caught by `taskChain`'s top-level handler). -/
theorem missing_identity_aborts (env : IdentityEnv)
    (ffetch : String → String → Except PyErr String)
    (ofetch : String → String → Except PyErr (Option String))
    (h : env.identityEndpoint = none ∨ env.identityHeader = none) :
    (∃ k, fa_get_access_token env ffetch = Except.error (PyErr.keyError k)) ∧
    tc_get_access_token env ofetch = none ∧
    wr_get_access_token env ofetch = none ∧
    (∀ now, createFridayTasks (tc_get_access_token env ofetch) now = []) ∧
    (∀ listing now, renewWebhookSubscriptions (wr_get_access_token env ofetch) listing now
       = ([], none)) := by
  obtain ⟨oe, oh⟩ := env
  have htc : tc_get_access_token ⟨oe, oh⟩ ofetch = none := by
    rcases h with h | h
    · simp only at h
      subst h
      cases oh <;> rfl
    · simp only at h
      subst h
      cases oe <;> rfl
  have hwr : wr_get_access_token ⟨oe, oh⟩ ofetch = none := by
    rcases h with h | h
    · simp only at h
      subst h
      cases oh <;> rfl
    · simp only at h
      subst h
      cases oe <;> rfl
  refine ⟨?_, htc, hwr, ?_, ?_⟩
  · rcases h with h | h
    · exact ⟨"IDENTITY_ENDPOINT", by simp_all [fa_get_access_token]⟩
    · cases oe with
      | none => exact ⟨"IDENTITY_ENDPOINT", by simp_all [fa_get_access_token]⟩
      | some ep => exact ⟨"IDENTITY_HEADER", by simp_all [fa_get_access_token]⟩
  · intro now
    rw [htc]
    rfl
  · intro listing now
    rw [hwr]
    rfl

/-- C9 witness (for the amended claim): with `IDENTITY_ENDPOINT` unset,
the task_creator and webhook_renewal token helpers return `None` and their
timers make no remote calls. -/
theorem missing_identity_aborts_witness :
    tc_get_access_token ⟨none, some "hdr"⟩ (fun _ _ => Except.ok (some "tok")) = none ∧
    wr_get_access_token ⟨none, some "hdr"⟩ (fun _ _ => Except.ok (some "tok")) = none ∧
    createFridayTasks (tc_get_access_token ⟨none, some "hdr"⟩ (fun _ _ => Except.ok (some "tok"))) demoNow = [] ∧
    renewWebhookSubscriptions
      (wr_get_access_token ⟨none, some "hdr"⟩ (fun _ _ => Except.ok (some "tok")))
      (some [c8GoodSub]) demoNow = ([], none) := by
  have h := missing_identity_aborts ⟨none, some "hdr"⟩
    (fun _ _ => Except.ok "tok") (fun _ _ => Except.ok (some "tok")) (Or.inl rfl)
  exact ⟨h.2.1, h.2.2.1, h.2.2.2.1 demoNow, h.2.2.2.2 (some [c8GoodSub]) demoNow⟩

/-- C4 counterexample infrastructure: the renewer firing at
2026-10-12 07:00:00 UTC; `c4NaiveSub` has a PARSABLE expiry that carries
no UTC offset, `c4AwareSub` a parsable aware expiry 17 hours away (well
within the 48-hour window). -/
def c4Now : PyDateTime := mkUtc 2026 10 12 7 0 0

def c4NaiveSub : Subscription := ⟨"s1", "2026-10-13T00:00:00", "todo-list-1"⟩

def c4AwareSub : Subscription := ⟨"s2", "2026-10-13T00:00:00Z", "todo-list-2"⟩

/-- C4 counterexample: `c4AwareSub` has a parsable expiry within 48 hours
of now, yet with `c4NaiveSub` ahead of it in the listing the loop issues
NO patch at all: the comparison `expiry <= renewal_threshold` on the
parsable-but-offset-naive expiry raises `TypeError`, which the
`except ValueError` clause does not catch, aborting the batch — so a
within-window subscription goes unpatched, contradicting the claim. -/
theorem renewal_window_counterexample :
    withinWindow c4Now c4AwareSub = true ∧
    renewProcess c4Now [c4NaiveSub, c4AwareSub] = ([], some PyErr.typeError) := by
  constructor <;> decide

/-- A subscription whose expiry either fails to parse or parses to an
offset-aware datetime (this is true of everything the Graph API actually
emits: its timestamps end in `Z`). -/
def parsesAware (sub : Subscription) : Bool :=
  match parseIso (replaceZ sub.expirationDateTime) with
  | some dt => dt.tzOffsetMinutes.isSome
  | none => true

/-- C4 (amended): on a firing at aware-UTC instant `now`, provided no
subscription's expiry parses to an offset-naive datetime, the renewer
patches exactly the subscriptions whose parsable expiry is at most
`now + 48h` — each patched to expire at `now + 4200 minutes` (70 hours) —
and issues no patch for (and so leaves untouched) every other
subscription; no exception escapes. -/
theorem renewal_window_frame (now : PyDateTime) (subs : List Subscription)
    (hnow : now.tzOffsetMinutes = some 0)
    (haware : subs.all parsesAware = true) :
    renewProcess now subs =
      ((subs.filter (withinWindow now)).map
        (fun sub => { subId := sub.id, newExpiry := fmtZ (addSeconds now (4200 * 60)) }),
       none) := by
  induction subs with
  | nil => rfl
  | cons sub rest ih =>
    rw [List.all_cons, Bool.and_eq_true] at haware
    have hrest := ih haware.2
    cases hp : parseIso (replaceZ sub.expirationDateTime) with
    | none =>
      have hw : withinWindow now sub = false := by
        simp [withinWindow, hp]
      simp only [renewProcess, hp, List.filter_cons, hw, Bool.false_eq_true, if_neg,
        not_false_eq_true, hrest]
    | some expiry =>
      have hoff : expiry.tzOffsetMinutes.isSome = true := by
        have := haware.1
        rw [parsesAware, hp] at this
        exact this
      obtain ⟨o, ho⟩ := Option.isSome_iff_exists.mp hoff
      have hthr : (addSeconds now (48 * 3600)).tzOffsetMinutes = some 0 := by
        simp [addSeconds, hnow]
      have hle : pyLe expiry (addSeconds now (48 * 3600))
          = Except.ok (decide (toEpochMicro expiry ≤ toEpochMicro (addSeconds now (48 * 3600)))) := by
        unfold pyLe
        rw [ho, hthr]
      have hw : withinWindow now sub
          = decide (toEpochMicro expiry ≤ toEpochMicro (addSeconds now (48 * 3600))) := by
        simp [withinWindow, hp]
      by_cases hin : toEpochMicro expiry ≤ toEpochMicro (addSeconds now (48 * 3600))
      · simp only [renewProcess, hp, hle, hin, decide_True, List.filter_cons, hw,
          if_pos, List.map_cons, hrest]
      · simp only [renewProcess, hp, hle, hin, decide_False, List.filter_cons, hw,
          Bool.false_eq_true, if_neg, not_false_eq_true, hrest]

/-- C4 witness (for the amended claim): one subscription inside the
window, one outside, one unparsable — exactly the first is patched, to
expire 4200 minutes after the firing instant. -/
theorem renewal_window_frame_witness :
    renewProcess c4Now [c4AwareSub, ⟨"s3", "2026-10-20T00:00:00Z", "todo"⟩,
        ⟨"s4", "garbage", "todo"⟩]
      = ([⟨"s2", "2026-10-15T05:00:00Z"⟩], none) := by
  rw [renewal_window_frame c4Now
    [c4AwareSub, ⟨"s3", "2026-10-20T00:00:00Z", "todo"⟩, ⟨"s4", "garbage", "todo"⟩]
    rfl (by decide)]
  decide

theorem fdiv_day_micro (k : Int) :
    Int.fdiv (k * 86400000000 + 18000000000) 86400000000 = k := by
  rw [add_comm, Int.fdiv_eq_ediv _ (by norm_num), Int.add_mul_ediv_right _ _ (by norm_num)]
  norm_num

/-- `(today_utc_at(5, 0) - anchor_midnight).days` equals the difference of
the civil day numbers: the extra five hours never carry across a day. -/
theorem timedelta_days_at_five (now : PyDateTime) (hz : now.tzOffsetMinutes = some 0)
    (ay : Int) (am ad : Nat) :
    pyTimedeltaDays (pyReplace now 5 0) (mkUtc ay am ad 0 0 0)
      = daysFromCivil now.year now.month now.day - daysFromCivil ay am ad := by
  unfold pyTimedeltaDays
  have h1 : toEpochMicro (pyReplace now 5 0)
      = (daysFromCivil now.year now.month now.day) * 86400000000 + 18000000000 := by
    simp only [toEpochMicro, pyReplace, hz, Option.getD_some]
    push_cast
    ring
  have h2 : toEpochMicro (mkUtc ay am ad 0 0 0) = (daysFromCivil ay am ad) * 86400000000 := by
    simp only [toEpochMicro, mkUtc, Option.getD_some]
    push_cast
    ring
  rw [h1, h2]
  have h3 : daysFromCivil now.year now.month now.day * 86400000000 + 18000000000
      - daysFromCivil ay am ad * 86400000000
      = (daysFromCivil now.year now.month now.day - daysFromCivil ay am ad) * 86400000000
        + 18000000000 := by ring
  rw [h3, fdiv_day_micro]

/-- The spec's firing rule for an alternating biweekly series, stated in
the spec's own terms: `elapsed_periods = floor((current_period_start −
series_anchor_date) / period_length)` with a 7-day period; fire exactly
when `elapsed_periods >= 0 and elapsed_periods % 2 == 0`. -/
def specBiweeklyFires (fy : Int) (fm fd : Nat) (ay : Int) (am ad : Nat) : Prop :=
  0 ≤ Int.fdiv (daysFromCivil fy fm fd - daysFromCivil ay am ad) 7 ∧
  Int.fdiv (daysFromCivil fy fm fd - daysFromCivil ay am ad) 7 % 2 = 0

/-- C5: biweekly cadence of `createFridayTasks`.  For any firing instant
(aware UTC), "Wash: Bath Towels" is created exactly when the whole weeks
elapsed since its anchor 2026-02-27 are non-negative and even, and
"Wash: Bedding" exactly when the weeks since ITS anchor 2026-03-06 are —
each series keeps its own phase.  Concretely: 14 days after an anchor the
task is created, 7 days after it is not. -/
theorem biweekly_cadence (tok : String) (now : PyDateTime)
    (hz : now.tzOffsetMinutes = some 0) :
    (("Wash: Bath Towels" ∈ (createFridayTasks (some tok) now).map (fun b => b.title))
       ↔ specBiweeklyFires now.year now.month now.day 2026 2 27) ∧
    (("Wash: Bedding" ∈ (createFridayTasks (some tok) now).map (fun b => b.title))
       ↔ specBiweeklyFires now.year now.month now.day 2026 3 6) ∧
    ("Wash: Bath Towels" ∈ (createFridayTasks (some tok) (mkUtc 2026 3 13 5 0 0)).map (fun b => b.title)) ∧
    ("Wash: Bath Towels" ∉ (createFridayTasks (some tok) (mkUtc 2026 3 6 5 0 0)).map (fun b => b.title)) ∧
    ("Wash: Bedding" ∈ (createFridayTasks (some tok) (mkUtc 2026 3 20 5 0 0)).map (fun b => b.title)) ∧
    ("Wash: Bedding" ∉ (createFridayTasks (some tok) (mkUtc 2026 3 13 5 0 0)).map (fun b => b.title)) := by
  have htitles : ∀ (now' : PyDateTime),
      (createFridayTasks (some tok) now').map (fun b => b.title)
        = "Vacuum: through and dust"
          :: ((if 0 ≤ Int.fdiv (pyTimedeltaDays (today_utc_at now' 5 0) bath_towels_start) 7 ∧
                  Int.fdiv (pyTimedeltaDays (today_utc_at now' 5 0) bath_towels_start) 7 % 2 = 0
               then ["Wash: Bath Towels"] else [])
            ++ (if 0 ≤ Int.fdiv (pyTimedeltaDays (today_utc_at now' 5 0) bedding_start) 7 ∧
                  Int.fdiv (pyTimedeltaDays (today_utc_at now' 5 0) bedding_start) 7 % 2 = 0
                then ["Wash: Bedding"] else [])) := by
    intro now'
    simp only [createFridayTasks]
    split_ifs <;> simp [create_todo_body]
  have hgen : ∀ (now' : PyDateTime), now'.tzOffsetMinutes = some 0 →
      (("Wash: Bath Towels" ∈ (createFridayTasks (some tok) now').map (fun b => b.title))
         ↔ specBiweeklyFires now'.year now'.month now'.day 2026 2 27) ∧
      (("Wash: Bedding" ∈ (createFridayTasks (some tok) now').map (fun b => b.title))
         ↔ specBiweeklyFires now'.year now'.month now'.day 2026 3 6) := by
    intro now' hz'
    have hbathd : pyTimedeltaDays (today_utc_at now' 5 0) bath_towels_start
        = daysFromCivil now'.year now'.month now'.day - daysFromCivil 2026 2 27 :=
      timedelta_days_at_five now' hz' 2026 2 27
    have hbedd : pyTimedeltaDays (today_utc_at now' 5 0) bedding_start
        = daysFromCivil now'.year now'.month now'.day - daysFromCivil 2026 3 6 :=
      timedelta_days_at_five now' hz' 2026 3 6
    rw [htitles now', hbathd, hbedd]
    simp only [List.mem_cons, List.mem_append, list_mem_ite_singleton]
    constructor
    · constructor
      · rintro (h | ⟨h, _⟩ | ⟨_, h⟩)
        · exact absurd h (by decide)
        · exact h
        · exact absurd h (by decide)
      · intro h
        exact Or.inr (Or.inl ⟨h, trivial⟩)
    · constructor
      · rintro (h | ⟨_, h⟩ | ⟨h, _⟩)
        · exact absurd h (by decide)
        · exact absurd h (by decide)
        · exact h
      · intro h
        exact Or.inr (Or.inr ⟨h, trivial⟩)
  refine ⟨(hgen now hz).1, (hgen now hz).2, ?_, ?_, ?_, ?_⟩
  · exact (hgen (mkUtc 2026 3 13 5 0 0) rfl).1.mpr (by constructor <;> decide)
  · intro hmem
    have h := (hgen (mkUtc 2026 3 6 5 0 0) rfl).1.mp hmem
    exact absurd h.2 (by decide)
  · exact (hgen (mkUtc 2026 3 20 5 0 0) rfl).2.mpr (by constructor <;> decide)
  · intro hmem
    have h := (hgen (mkUtc 2026 3 13 5 0 0) rfl).2.mp hmem
    exact absurd h.2 (by decide)

/-- C5 witness: the cadence claim instantiated at the firing of
2026-03-13 05:00 UTC (14 days after the Bath Towels anchor, 7 after the
Bedding anchor). -/
theorem biweekly_cadence_witness :
    ("Wash: Bath Towels"
      ∈ (createFridayTasks (some "tok") (mkUtc 2026 3 13 5 0 0)).map (fun b => b.title)) ∧
    ("Wash: Bedding"
      ∉ (createFridayTasks (some "tok") (mkUtc 2026 3 13 5 0 0)).map (fun b => b.title)) := by
  have h := biweekly_cadence "tok" (mkUtc 2026 3 13 5 0 0) rfl
  exact ⟨h.2.2.1, h.2.2.2.2.2⟩

/-- A JSON value the dispatcher loop can consume as one notification: an
object whose `resource`, if present, is a string (spec §6's
`{resource: string}` items). -/
def validNotifItem : PyVal → Bool
  | .pdict kvs =>
    match lookupKV "resource" kvs with
    | none => true
    | some (.pstr _) => true
    | some _ => false
  | _ => false

/-- The claim's "structurally valid JSON of the form `{value: [...]}`":
an object whose `value` is an array of notification objects. -/
def validBody : PyVal → Bool
  | .pdict kvs =>
    match lookupKV "value" kvs with
    | some (.plist items) => items.all validNotifItem
    | _ => false
  | _ => false

theorem processItems_no_error (now : PyDateTime) (chains : List Chain)
    (items : List PyVal) (hv : items.all validNotifItem = true) (st : GraphState) :
    (processItems now chains items st).2.2 = none := by
  induction items generalizing st with
  | nil => rfl
  | cons item rest ih =>
    rw [List.all_cons, Bool.and_eq_true] at hv
    cases item with
    | pdict kvs =>
      have hres : ∃ s, notifResource (PyVal.pdict kvs) = Except.ok (PyVal.pstr s) := by
        have h1 := hv.1
        rw [validNotifItem] at h1
        cases hkv : lookupKV "resource" kvs with
        | none => exact ⟨"", by simp [notifResource, hkv]⟩
        | some rv =>
          rw [hkv] at h1
          cases rv with
          | pstr s => exact ⟨s, by simp [notifResource, hkv]⟩
          | pint n => simp at h1
          | pbool b => simp at h1
          | pnull => simp at h1
          | plist xs => simp at h1
          | pdict kvs2 => simp at h1
      obtain ⟨s, hs⟩ := hres
      simp only [processItems, hs]
      exact ih hv.2 _
    | pstr s => have h1 := hv.1; simp [validNotifItem] at h1
    | pint n => have h1 := hv.1; simp [validNotifItem] at h1
    | pbool b => have h1 := hv.1; simp [validNotifItem] at h1
    | pnull => have h1 := hv.1; simp [validNotifItem] at h1
    | plist xs => have h1 := hv.1; simp [validNotifItem] at h1

theorem runLoop_no_error (now : PyDateTime) (chains : List Chain)
    (v : PyVal) (hv : validBody v = true) (st : GraphState) :
    (runLoop now chains v st).2.2 = none := by
  cases v with
  | pdict kvs =>
    rw [validBody] at hv
    cases hkv : lookupKV "value" kvs with
    | none => rw [hkv] at hv; exact absurd hv (by decide)
    | some nv =>
      rw [hkv] at hv
      cases nv with
      | plist items =>
        simp only [runLoop, hkv, Option.getD_some, pyIter]
        exact processItems_no_error now chains items hv st
      | pstr s => simp at hv
      | pint n => simp at hv
      | pbool b => simp at hv
      | pnull => simp at hv
      | pdict kvs2 => simp at hv
  | pstr s => simp [validBody] at hv
  | pint n => simp [validBody] at hv
  | pbool b => simp [validBody] at hv
  | pnull => simp [validBody] at hv
  | plist xs => simp [validBody] at hv

/-- C6: response contract of the webhook handler for requests without a
`validationToken`.  (i) A structurally valid body `{value: [...]}` gets
`"OK"`/200 for every remote state and rule document — so in particular
even when rule applications inside the batch fail (unresolvable target
lists, existing successors, unparsable due times never raise);
(ii) an unparsable body gets an error message/500;
(iii) for a parsable body the response is 500 exactly when an exception
escapes the processing loop, and `"OK"`/200 otherwise. -/
theorem webhook_response_contract (now : PyDateTime) (chains : List Chain)
    (st : GraphState) :
    (∀ v, validBody v = true →
       (taskChainHandler now chains st { validationToken := none, body := some v }).1
         = { body := "OK", statusCode := 200, mimetype := none }) ∧
    ((taskChainHandler now chains st { validationToken := none, body := none }).1.statusCode
       = 500) ∧
    (∀ v,
       ((taskChainHandler now chains st { validationToken := none, body := some v }).1.statusCode = 500
          ↔ (runLoop now chains v st).2.2.isSome) ∧
       ((runLoop now chains v st).2.2 = none →
          (taskChainHandler now chains st { validationToken := none, body := some v }).1
            = { body := "OK", statusCode := 200, mimetype := none })) := by
  refine ⟨?_, rfl, ?_⟩
  · intro v hv
    have h := runLoop_no_error now chains v hv st
    simp only [taskChainHandler, h]
  · intro v
    cases herr : (runLoop now chains v st).2.2 with
    | none =>
      refine ⟨by simp [taskChainHandler, herr], fun _ => by simp [taskChainHandler, herr]⟩
    | some e =>
      refine ⟨by simp [taskChainHandler, herr], fun h => ?_⟩
      exact Option.noConfusion h

/-- C6 witness infrastructure: a valid notification batch against a rule
document whose target list does NOT resolve, so the rule application
inside the batch fails and no task is created — the handler still answers
OK/200. -/
def c6Chains : List Chain := [⟨"A", "B1", "NoSuchList", "[02] Home", none⟩]

def c6Body : PyVal :=
  PyVal.pdict [("value", PyVal.plist
    [PyVal.pdict [("resource", PyVal.pstr ("lists(" ++ q ++ "l0" ++ q ++ ")"))]])]

/-- C6 witness: the valid batch above gets `"OK"`/200 although its one
rule application fails (target list unresolvable: zero creation calls). -/
theorem webhook_response_contract_witness :
    validBody c6Body = true ∧
    (taskChainHandler demoNow c6Chains c2State { validationToken := none, body := some c6Body }).1
      = { body := "OK", statusCode := 200, mimetype := none } ∧
    (taskChainHandler demoNow c6Chains c2State { validationToken := none, body := some c6Body }).2.2
      = [] := by
  refine ⟨by decide, (webhook_response_contract demoNow c6Chains c2State).1 c6Body (by decide), ?_⟩
  decide

/-! ### Idempotence of the Chain Dispatcher (C1)

Creating a task only appends a `notStarted` task to one list: it changes
no list id or display name, adds nothing to any completed-tasks snapshot,
and only ever grows the title sets `task_exists` consults.  `GraphExtends`
captures exactly these three facts, and `chainSettled` the postcondition
that makes a later application of the same chain a no-op. -/

theorem find?_map_of_pred_inv {α : Type} {p : α → Bool} {f : α → α}
    (hf : ∀ a, p (f a) = p a) (ls : List α) :
    (ls.map f).find? p = (ls.find? p).map f := by
  induction ls with
  | nil => rfl
  | cons a rest ih =>
    cases hp : p a with
    | true => simp [List.find?_cons, hp, hf]
    | false => simp [List.find?_cons, hp, hf, ih]

theorem findList_create (st : GraphState) (tgt nm lid : String) :
    findList (create_task_st st tgt nm) lid
      = (findList st lid).map (fun L =>
          if L.id == tgt then { L with tasks := L.tasks ++ [{ title := nm, completed := false }] }
          else L) := by
  unfold findList create_task_st
  exact find?_map_of_pred_inv (fun L => by by_cases h : L.id = tgt <;> simp [h]) st.lists

theorem get_list_id_create (st : GraphState) (tgt nm listName : String) :
    get_list_id (create_task_st st tgt nm) listName = get_list_id st listName := by
  unfold get_list_id create_task_st
  rw [find?_map_of_pred_inv (fun L => by by_cases h : L.id = tgt <;> simp [h]) st.lists]
  cases st.lists.find? (fun L => L.displayName == listName) with
  | none => rfl
  | some L => by_cases h : L.id = tgt <;> simp [h]

theorem get_completed_create (st : GraphState) (tgt nm lid : String) :
    get_completed_tasks (create_task_st st tgt nm) lid = get_completed_tasks st lid := by
  unfold get_completed_tasks
  rw [findList_create]
  cases findList st lid with
  | none => rfl
  | some L =>
    by_cases h : L.id = tgt
    · simp [h, List.filter_append]
    · simp [h]

theorem task_exists_mono_create (st : GraphState) (tgt nm lid n : String)
    (h : task_exists st lid n = true) :
    task_exists (create_task_st st tgt nm) lid n = true := by
  unfold task_exists at h ⊢
  rw [findList_create]
  cases hf : findList st lid with
  | none => rw [hf] at h; exact absurd h (by simp)
  | some L =>
    rw [hf] at h
    have h2 : (L.tasks.any fun t => t.title == n) = true := h
    show ((if L.id == tgt then { L with tasks := L.tasks ++ [{ title := nm, completed := false }] }
           else L).tasks.any fun t => t.title == n) = true
    by_cases hid : L.id = tgt
    · simp [hid, List.any_append, h2]
    · simp [hid, h2]

theorem task_exists_create_self (st : GraphState) (tgt nm : String) (L : TodoList)
    (hL : findList st tgt = some L) :
    task_exists (create_task_st st tgt nm) tgt nm = true := by
  have h2 : st.lists.find? (fun K => K.id == tgt) = some L := by simpa [findList] using hL
  have hid : (L.id == tgt) = true := by
    have h3 := List.find?_some h2
    simpa using h3
  unfold task_exists
  rw [findList_create, hL]
  show ((if L.id == tgt then { L with tasks := L.tasks ++ [{ title := nm, completed := false }] }
         else L).tasks.any fun t => t.title == nm) = true
  simp [hid, List.any_append]

theorem exists_findList_of_get_list_id (st : GraphState) (listName tgt : String)
    (h : get_list_id st listName = some tgt) :
    ∃ L, findList st tgt = some L := by
  unfold get_list_id at h
  cases hf : st.lists.find? (fun L => L.displayName == listName) with
  | none => rw [hf] at h; exact absurd h (by simp)
  | some L0 =>
    rw [hf] at h
    have h' : L0.id = tgt := by simpa using h
    have hmem : L0 ∈ st.lists := List.mem_of_find?_eq_some hf
    have : (st.lists.find? (fun L => L.id == tgt)).isSome :=
      List.find?_isSome.mpr ⟨L0, hmem, by simp [h']⟩
    exact Option.isSome_iff_exists.mp this

/-- The state after an invocation extends the state before it: names and
ids resolve identically, completed snapshots are unchanged (created tasks
are `notStarted`), and existing titles keep existing. -/
def GraphExtends (st st' : GraphState) : Prop :=
  (∀ nm, get_list_id st' nm = get_list_id st nm) ∧
  (∀ lid, get_completed_tasks st' lid = get_completed_tasks st lid) ∧
  (∀ lid n, task_exists st lid n = true → task_exists st' lid n = true)

theorem graphExtends_refl (st : GraphState) : GraphExtends st st :=
  ⟨fun _ => rfl, fun _ => rfl, fun _ _ h => h⟩

theorem graphExtends_trans {s1 s2 s3 : GraphState}
    (h12 : GraphExtends s1 s2) (h23 : GraphExtends s2 s3) : GraphExtends s1 s3 :=
  ⟨fun nm => (h23.1 nm).trans (h12.1 nm),
   fun lid => (h23.2.1 lid).trans (h12.2.1 lid),
   fun lid n h => h23.2.2 lid n (h12.2.2 lid n h)⟩

theorem graphExtends_create (st : GraphState) (tgt nm : String) :
    GraphExtends st (create_task_st st tgt nm) :=
  ⟨fun listName => get_list_id_create st tgt nm listName,
   fun lid => get_completed_create st tgt nm lid,
   fun lid n h => task_exists_mono_create st tgt nm lid n h⟩

/-- After the chain has been handled once, a target resolved from its
`list` name already holds a task titled `creates_task` — so handling it
again is a no-op. -/
def chainSettled (st : GraphState) (title : String) (c : Chain) : Prop :=
  c.trigger_task = title →
    ∀ tgt, get_list_id st c.list = some tgt → task_exists st tgt c.creates_task = true

theorem chainSettled_of_extends {st st' : GraphState} {title : String} {c : Chain}
    (hE : GraphExtends st st') (hS : chainSettled st title c) :
    chainSettled st' title c := by
  intro htr tgt hres
  rw [hE.1] at hres
  exact hE.2.2 tgt c.creates_task (hS htr tgt hres)

theorem applyChain_eq_nomatch {now : PyDateTime} {title : String} {c : Chain}
    {st : GraphState} (htr : (c.trigger_task == title) = false) :
    applyChain now title c st = (st, []) := by
  simp [applyChain, htr]

theorem applyChain_eq_nores {now : PyDateTime} {title : String} {c : Chain}
    {st : GraphState} (hres : get_list_id st c.list = none) :
    applyChain now title c st = (st, []) := by
  simp [applyChain, hres]

theorem applyChain_eq_exists {now : PyDateTime} {title : String} {c : Chain}
    {st : GraphState} {tgt : String} (hres : get_list_id st c.list = some tgt)
    (hex : task_exists st tgt c.creates_task = true) :
    applyChain now title c st = (st, []) := by
  simp [applyChain, hres, hex]

theorem applyChain_eq_create {now : PyDateTime} {title : String} {c : Chain}
    {st : GraphState} {tgt : String} (htr : (c.trigger_task == title) = true)
    (hres : get_list_id st c.list = some tgt)
    (hex : task_exists st tgt c.creates_task = false) :
    applyChain now title c st
      = (create_task_st st tgt c.creates_task,
         [{ listId := tgt, body := create_task_body c.creates_task c.category c.due_time now }]) := by
  simp [applyChain, htr, hres, hex]

theorem applyChain_settles (now : PyDateTime) (title : String) (c : Chain)
    (st : GraphState) :
    chainSettled (applyChain now title c st).1 title c ∧
    GraphExtends st (applyChain now title c st).1 := by
  cases htr : (c.trigger_task == title) with
  | false =>
    rw [applyChain_eq_nomatch htr]
    exact ⟨fun h _ _ => absurd (beq_iff_eq.mpr h) (by simp [htr]), graphExtends_refl st⟩
  | true =>
    cases hres : get_list_id st c.list with
    | none =>
      rw [applyChain_eq_nores hres]
      show chainSettled st title c ∧ GraphExtends st st
      refine ⟨fun _ tgt h => ?_, graphExtends_refl st⟩
      rw [hres] at h
      exact Option.noConfusion h
    | some tgt =>
      cases hex : task_exists st tgt c.creates_task with
      | true =>
        rw [applyChain_eq_exists hres hex]
        show chainSettled st title c ∧ GraphExtends st st
        refine ⟨fun _ tgt' h => ?_, graphExtends_refl st⟩
        rw [hres] at h
        cases h
        exact hex
      | false =>
        obtain ⟨L, hL⟩ := exists_findList_of_get_list_id st c.list tgt hres
        rw [applyChain_eq_create htr hres hex]
        show chainSettled (create_task_st st tgt c.creates_task) title c ∧
          GraphExtends st (create_task_st st tgt c.creates_task)
        refine ⟨fun _ tgt' h => ?_, graphExtends_create st tgt c.creates_task⟩
        rw [get_list_id_create, hres] at h
        cases h
        exact task_exists_create_self st tgt c.creates_task L hL

theorem applyChain_noop (now : PyDateTime) (title : String) (c : Chain)
    (st : GraphState) (hS : chainSettled st title c) :
    applyChain now title c st = (st, []) := by
  cases htr : (c.trigger_task == title) with
  | false => exact applyChain_eq_nomatch htr
  | true =>
    cases hres : get_list_id st c.list with
    | none => exact applyChain_eq_nores hres
    | some tgt => exact applyChain_eq_exists hres (hS (beq_iff_eq.mp htr) tgt hres)

theorem runChains_settles (now : PyDateTime) (title : String)
    (cs : List Chain) (st : GraphState) :
    (∀ c ∈ cs, chainSettled (runChains now title cs st).1 title c) ∧
    GraphExtends st (runChains now title cs st).1 := by
  induction cs generalizing st with
  | nil => exact ⟨fun c hc => absurd hc (List.not_mem_nil c), graphExtends_refl st⟩
  | cons c rest ih =>
    have h1 := applyChain_settles now title c st
    have h2 := ih (applyChain now title c st).1
    refine ⟨fun d hd => ?_, graphExtends_trans h1.2 h2.2⟩
    rcases List.mem_cons.mp hd with hd | hd
    · subst hd
      exact chainSettled_of_extends (show GraphExtends (applyChain now title d st).1
        (runChains now title (d :: rest) st).1 by simpa [runChains] using h2.2) h1.1
    · simpa [runChains] using h2.1 d hd

theorem runChains_noop (now : PyDateTime) (title : String)
    (cs : List Chain) (st : GraphState)
    (hS : ∀ c ∈ cs, chainSettled st title c) :
    runChains now title cs st = (st, []) := by
  induction cs with
  | nil => rfl
  | cons c rest ih =>
    have h1 : applyChain now title c st = (st, []) :=
      applyChain_noop now title c st (hS c (List.mem_cons_self c rest))
    have h2 : runChains now title rest st = (st, []) :=
      ih (fun d hd => hS d (List.mem_cons_of_mem c hd))
    simp [runChains, h1, h2]

theorem runTasks_settles (now : PyDateTime) (chains : List Chain)
    (ts : List RTask) (st : GraphState) :
    (∀ t ∈ ts, ∀ c ∈ chains, chainSettled (runTasks now chains ts st).1 t.title c) ∧
    GraphExtends st (runTasks now chains ts st).1 := by
  induction ts generalizing st with
  | nil => exact ⟨fun t ht => absurd ht (List.not_mem_nil t), graphExtends_refl st⟩
  | cons t rest ih =>
    have h1 := runChains_settles now t.title chains st
    have h2 := ih (runChains now t.title chains st).1
    refine ⟨fun u hu c hc => ?_, graphExtends_trans h1.2 h2.2⟩
    rcases List.mem_cons.mp hu with hu | hu
    · subst hu
      exact chainSettled_of_extends (show GraphExtends (runChains now u.title chains st).1
        (runTasks now chains (u :: rest) st).1 by simpa [runTasks] using h2.2)
        (h1.1 c hc)
    · simpa [runTasks] using h2.1 u hu c hc

theorem runTasks_noop (now : PyDateTime) (chains : List Chain)
    (ts : List RTask) (st : GraphState)
    (hS : ∀ t ∈ ts, ∀ c ∈ chains, chainSettled st t.title c) :
    runTasks now chains ts st = (st, []) := by
  induction ts with
  | nil => rfl
  | cons t rest ih =>
    have h1 : runChains now t.title chains st = (st, []) :=
      runChains_noop now t.title chains st (hS t (List.mem_cons_self t rest))
    have h2 : runTasks now chains rest st = (st, []) :=
      ih (fun u hu => hS u (List.mem_cons_of_mem t hu))
    simp [runTasks, h1, h2]

/-- Running the dispatcher a second time on the same notification, from
the state the first run produced, changes nothing and creates nothing. -/
theorem processNotification_idem (now now2 : PyDateTime) (chains : List Chain)
    (n : Notification) (st : GraphState) :
    processNotification now2 chains n (processNotification now chains n st).1
      = ((processNotification now chains n st).1, []) := by
  cases hfind : findListId n.resource with
  | none => simp [processNotification, hfind]
  | some lid =>
    have hset := runTasks_settles now chains (get_completed_tasks st lid) st
    have hsnap : get_completed_tasks (runTasks now chains (get_completed_tasks st lid) st).1 lid
        = get_completed_tasks st lid := hset.2.2.1 lid
    have heq : processNotification now chains n st
        = runTasks now chains (get_completed_tasks st lid) st := by
      simp [processNotification, hfind]
    have heq2 : processNotification now2 chains n (processNotification now chains n st).1
        = runTasks now2 chains
            (get_completed_tasks (processNotification now chains n st).1 lid)
            (processNotification now chains n st).1 := by
      simp [processNotification, hfind]
    rw [heq2, heq, hsnap]
    exact runTasks_noop now2 chains (get_completed_tasks st lid)
      (runTasks now chains (get_completed_tasks st lid) st).1 hset.1

/-- C1: idempotence of the Chain Dispatcher.  If the first invocation on a
notification issues exactly one successor-creation call, then invoking the
dispatcher again on the same notification — against the remote state the
first invocation left, with no intervening change — issues none, so
exactly one creation call is made across both invocations. -/
theorem chain_dispatcher_idempotent (now now2 : PyDateTime) (chains : List Chain)
    (n : Notification) (st : GraphState)
    (h1 : ((processNotification now chains n st).2).length = 1) :
    (processNotification now2 chains n (processNotification now chains n st).1).2 = [] ∧
    ((processNotification now chains n st).2
      ++ (processNotification now2 chains n (processNotification now chains n st).1).2).length
      = 1 := by
  have h := processNotification_idem now now2 chains n st
  constructor
  · rw [h]
  · rw [h]
    simpa using h1

/-- C1 witness infrastructure: one completed trigger task, one matching
rule, resolvable empty target list — the first invocation creates exactly
one successor. -/
def c1State : GraphState :=
  ⟨[⟨"l0", "Source", [⟨"Wash: Towels", true⟩]⟩, ⟨"l1", "Chores", []⟩]⟩

def c1Chains : List Chain :=
  [⟨"Wash: Towels", "Dry: Towels", "Chores", "[02] Home", some "19:00"⟩]

def c1Notif : Notification := ⟨"lists(" ++ q ++ "l0" ++ q ++ ")"⟩

/-- C1 witness: on the concrete scenario the first invocation makes
exactly one creation call and the second makes none. -/
theorem chain_dispatcher_idempotent_witness :
    ((processNotification demoNow c1Chains c1Notif c1State).2).length = 1 ∧
    (processNotification demoNow c1Chains c1Notif
        (processNotification demoNow c1Chains c1Notif c1State).1).2 = [] ∧
    ((processNotification demoNow c1Chains c1Notif c1State).2
      ++ (processNotification demoNow c1Chains c1Notif
            (processNotification demoNow c1Chains c1Notif c1State).1).2).length = 1 := by
  have h := chain_dispatcher_idempotent demoNow demoNow c1Chains c1Notif c1State (by decide)
  exact ⟨by decide, h.1, h.2⟩

end Monica
